import Mathlib

/-!
# Verification of the resilient Gemini client layer

Shallow embedding of the error classifier (`parseGeminiError`), the quota
cooldown manager (`setGeminiQuotaExhaustedCooldown`), the retrying request
executors (`generateWordDetailsWithGemini`, `generateImageForWordWithGemini`)
and the streaming chat send handler (`handleSendMessage`) from the
repository's single source file, together with theorems settling the frozen
claims about them.
-/

namespace GeminiClient

/-- Severity of a toast notification; models `ToastMessage['type']`
(`'success' | 'error' | 'warning' | 'info'`). -/
inductive ToastType where
  | success
  | error
  | warning
  | info
deriving DecidableEq, Repr

/-- Identifies which `addToast` call site in the source emitted a
notification.  The Korean message templates themselves are not reproduced;
each constructor stands for one distinct `addToast(...)` expression. -/
inductive ToastMsg where
  /-- Toast "AI 기능을 사용하려면 API 키가 필요합니다..." (no `ai` handle). -/
  | noApiKey
  /-- Toast "Gemini API 할당량이 이전에 감지되어..." (skipped due to active cooldown). -/
  | quotaSkip
  /-- Cooldown activation message emitted inside `setGeminiQuotaExhaustedCooldown`. -/
  | cooldownActivated
  /-- Cooldown-finished message emitted by the scheduled timer callback. -/
  | cooldownEnded
  /-- Toast "AI가 ... 정보를 일부 누락하여 반환했습니다. 재시도 중..." (missing fields, retrying). -/
  | missingRetry
  /-- Toast "AI가 ...에 대한 충분한 정보를 제공하지 못했습니다... 모든 시도 실패." (missing fields, last attempt). -/
  | missingFinal
  /-- Toast "Gemini API 요청 빈도가 높아 ... 재시도합니다..." (rate limited, retrying). -/
  | rateLimitRetry
  /-- Toast "... 가져오기 중 오류 발생. ... 재시도합니다..." (generic error, retrying). -/
  | genericRetry
  /-- Toast "Gemini API 요청 빈도가 너무 높습니다..." (rate limited, attempts exhausted). -/
  | rateLimitFinal
  /-- Toast "... 최종 실패했습니다..." (generic error, attempts exhausted). -/
  | genericFinal
  /-- Defensive fallback toast after the loop exits without returning. -/
  | loopExhausted
  /-- Toast "...이(가) 완료되었습니다." (image generation succeeded). -/
  | imageDone
  /-- Toast "AI가 ... 이미지를 반환했지만 데이터가 누락되었습니다..." (missing image bytes, retrying). -/
  | imageMissingRetry
  /-- Toast "AI가 ...에 대한 이미지를 제공하지 못했습니다..." (missing image bytes, last attempt). -/
  | imageMissingFinal
  /-- Toast "AI 튜터와의 대화 중 오류가 발생했습니다..." (streaming chat failure). -/
  | chatError
deriving DecidableEq, Repr

/-- A toast notification as observed through the injected callback:
which call site fired, at which severity. -/
abbrev Toast := ToastMsg × ToastType

/-- JavaScript `hay.includes(pat)`: `pat` occurs as a contiguous substring. -/
def strIncludes (hay pat : String) : Bool :=
  (List.range (hay.data.length + 1)).any fun i =>
    pat.data.isPrefixOf (hay.data.drop i)

/-- ASCII lower-casing of one character (the fragment of JavaScript
`toLowerCase` exercised by this code base). -/
def asciiLower (c : Char) : Char :=
  if 65 ≤ c.toNat ∧ c.toNat ≤ 90 then Char.ofNat (c.toNat + 32) else c

/-- ASCII upper-casing of one character (the fragment of JavaScript
`toUpperCase` exercised by this code base). -/
def asciiUpper (c : Char) : Char :=
  if 97 ≤ c.toNat ∧ c.toNat ≤ 122 then Char.ofNat (c.toNat - 32) else c

/-- JavaScript `s.toLowerCase()` (ASCII fragment). -/
def strLower (s : String) : String :=
  String.mk (s.data.map asciiLower)

/-- JavaScript `s.toUpperCase()` (ASCII fragment). -/
def strUpper (s : String) : String :=
  String.mk (s.data.map asciiUpper)

/-- JavaScript whitespace as used by `trim` and matched by `\s`. -/
def isSpaceChar (c : Char) : Bool :=
  c == ' ' || c == '\n' || c == '\t' || c == '\r'

/-- JavaScript `s.trim()`: strip leading and trailing whitespace. -/
def strTrim (s : String) : String :=
  String.mk (((s.data.dropWhile isSpaceChar).reverse.dropWhile isSpaceChar).reverse)

/-- The error values `parseGeminiError` distinguishes, mirroring its three
extraction branches:
* `structured msg code status` — `error.error.message` is a string
  (`code`/`status` model the optional numeric `error.error.code` and string
  `error.error.status` fields);
* `general msg status` — `error.message` is a string (`status` models the
  optional numeric `error.status` field);
* `plain s` — anything else, carrying its `String(error)` rendering. -/
inductive RawError where
  | structured (message : String) (code : Option Int) (status : Option String)
  | general (message : String) (status : Option Int)
  | plain (s : String)
deriving DecidableEq, Repr

/-- JavaScript falsiness of the extracted `statusCode` (`!statusCode`):
true when the value is absent or zero. -/
def optIntFalsy (o : Option Int) : Bool :=
  o.getD 0 == 0

/-- The fields `parseGeminiError` extracts before computing its flags:
lower-cased message, optional numeric status code, optional upper-cased
provider status tag, and the display message. -/
structure ExtractedGeminiError where
  detailedErrorMessage : String
  statusCode : Option Int
  geminiErrorStatus : Option String
  displayErrorMsg : String
deriving DecidableEq, Repr

/-- The extraction phase of `parseGeminiError` (source lines 329-351).
In the `general` branch the numeric `error.status` is adopted only when
truthy (`if (error.status && typeof error.status === 'number')`), so a zero
status is dropped there. -/
def extractGeminiError : RawError → ExtractedGeminiError
  | RawError.structured msg code status =>
      { detailedErrorMessage := strLower msg
        statusCode := code
        geminiErrorStatus := status.map strUpper
        displayErrorMsg := msg }
  | RawError.general msg status =>
      { detailedErrorMessage := strLower msg
        statusCode := match status with
          | some n => if n == 0 then none else some n
          | none => none
        geminiErrorStatus := none
        displayErrorMsg := msg }
  | RawError.plain s =>
      { detailedErrorMessage := strLower s
        statusCode := none
        geminiErrorStatus := none
        displayErrorMsg := s }

/-- The `isQuotaExhaustedError` formula of `parseGeminiError`
(source lines 353-357), verbatim over the extracted fields. -/
def isQuotaExhaustedOf (x : ExtractedGeminiError) : Bool :=
  (x.statusCode == some 429 &&
    (strIncludes x.detailedErrorMessage "quota" ||
      x.geminiErrorStatus == some "RESOURCE_EXHAUSTED")) ||
  (optIntFalsy x.statusCode && strIncludes x.detailedErrorMessage "quota" &&
    (strIncludes x.detailedErrorMessage "exceeded" ||
      strIncludes x.detailedErrorMessage "exhausted")) ||
  (x.geminiErrorStatus == some "RESOURCE_EXHAUSTED")

/-- The `isRateLimitErrorForRetry` formula of `parseGeminiError`
(source line 359). -/
def isRateLimitOf (x : ExtractedGeminiError) : Bool :=
  x.statusCode == some 429 && !(isQuotaExhaustedOf x)

/-- The classification record returned by `parseGeminiError`. -/
structure ParsedGeminiError where
  detailedErrorMessage : String
  statusCode : Option Int
  geminiErrorStatus : Option String
  isQuotaExhaustedError : Bool
  isRateLimitErrorForRetry : Bool
  displayErrorMsg : String
deriving DecidableEq, Repr

/-- `parseGeminiError` (source lines 328-362): extract the structured
fields, then compute the two Boolean flags. -/
def parseGeminiError (e : RawError) : ParsedGeminiError :=
  let x := extractGeminiError e
  { detailedErrorMessage := x.detailedErrorMessage
    statusCode := x.statusCode
    geminiErrorStatus := x.geminiErrorStatus
    isQuotaExhaustedError := isQuotaExhaustedOf x
    isRateLimitErrorForRetry := isRateLimitOf x
    displayErrorMsg := x.displayErrorMsg }

/-- The quota-exhaustion predicate exactly as the claim words it: true when
(statusCode == 429 and the lower-cased message contains "quota") or the
provider status tag equals "RESOURCE_EXHAUSTED" or (statusCode is absent
and the lower-cased message contains "quota" and contains "exceeded" or
"exhausted"). -/
def claimQuotaExhausted (c : ParsedGeminiError) : Bool :=
  (c.statusCode == some 429 && strIncludes c.detailedErrorMessage "quota") ||
  (c.geminiErrorStatus == some "RESOURCE_EXHAUSTED") ||
  (c.statusCode == none && strIncludes c.detailedErrorMessage "quota" &&
    (strIncludes c.detailedErrorMessage "exceeded" ||
      strIncludes c.detailedErrorMessage "exhausted"))

/-- The amended quota-exhaustion predicate: "statusCode is absent" is
widened to "statusCode is absent or equal to 0", matching the source's
JavaScript falsiness test `!statusCode`. -/
def claimQuotaExhaustedAmended (c : ParsedGeminiError) : Bool :=
  (c.statusCode == some 429 && strIncludes c.detailedErrorMessage "quota") ||
  (c.geminiErrorStatus == some "RESOURCE_EXHAUSTED") ||
  ((c.statusCode == none || c.statusCode == some 0) &&
    strIncludes c.detailedErrorMessage "quota" &&
    (strIncludes c.detailedErrorMessage "exceeded" ||
      strIncludes c.detailedErrorMessage "exhausted"))

/-- The process-wide cooldown state: the module-level globals
`isCurrentlyGeminiQuotaExhausted` and `quotaCooldownTimeoutId` (the latter
abstracted to whether a deactivation timer is pending). -/
structure CooldownState where
  isActive : Bool
  pendingTimeout : Bool
deriving DecidableEq, Repr

/-- Observable outcome of one `setGeminiQuotaExhaustedCooldown` call: the
new state, the toasts emitted, and how many timers were scheduled
(`window.setTimeout`) and cleared (`clearTimeout`). -/
structure ActivateResult where
  state : CooldownState
  toasts : List Toast
  scheduled : Nat
  cleared : Nat
deriving DecidableEq, Repr

/-- `setGeminiQuotaExhaustedCooldown` (source lines 301-326): when the flag
is not yet set, set it, emit the explanatory error toast, clear any stale
timer handle and schedule the deactivation timer; otherwise do nothing. -/
def setGeminiQuotaExhaustedCooldown (s : CooldownState) : ActivateResult :=
  if s.isActive then
    { state := s, toasts := [], scheduled := 0, cleared := 0 }
  else
    { state := { isActive := true, pendingTimeout := true }
      toasts := [(ToastMsg.cooldownActivated, ToastType.error)]
      scheduled := 1
      cleared := if s.pendingTimeout then 1 else 0 }

/-- The deactivation callback scheduled by `setGeminiQuotaExhaustedCooldown`
(source lines 319-324): clear the flag and the timer handle and emit the
info toast announcing calls may resume. -/
def cooldownTimerFire (_s : CooldownState) : CooldownState × List Toast :=
  ({ isActive := false, pendingTimeout := false },
    [(ToastMsg.cooldownEnded, ToastType.info)])

/-- A JSON value as far as this code base's payloads need: a string or
`null` (the prompt mandates a flat JSON object with string fields, and the
field-presence checks only distinguish truthy strings). -/
inductive JsonVal where
  | str (s : String)
  | null
deriving DecidableEq, Repr

/-- Skip leading JSON/JavaScript whitespace. -/
def skipWs : List Char → List Char
  | c :: cs => if isSpaceChar c then skipWs cs else c :: cs
  | [] => []

/-- Consume the body of a double-quoted string literal (no escape
sequences, which none of the payloads here contain), returning the
content and the remainder after the closing quote. -/
def parseStrBody : List Char → Option (List Char × List Char)
  | [] => none
  | c :: cs =>
    if c == '"' then some ([], cs)
    else match parseStrBody cs with
      | some (acc, rest) => some (c :: acc, rest)
      | none => none

/-- Parse one JSON value (string literal or `null`). -/
def parseJsonValue (cs : List Char) : Option (JsonVal × List Char) :=
  match skipWs cs with
  | '"' :: rest =>
    match parseStrBody rest with
    | some (acc, r) => some (JsonVal.str (String.mk acc), r)
    | none => none
  | 'n' :: 'u' :: 'l' :: 'l' :: rest => some (JsonVal.null, rest)
  | _ => none

/-- Parse one `"key": value` pair. -/
def parseJsonPair (cs : List Char) : Option ((String × JsonVal) × List Char) :=
  match skipWs cs with
  | '"' :: rest =>
    match parseStrBody rest with
    | some (key, r1) =>
      match skipWs r1 with
      | ':' :: r2 =>
        match parseJsonValue r2 with
        | some (v, r3) => some ((String.mk key, v), r3)
        | none => none
      | _ => none
    | none => none
  | _ => none

/-- Parse a comma-separated pair list up to and including the closing
brace; `fuel` bounds the recursion by the input length. -/
def parseJsonPairsAux : Nat → List Char → Option (List (String × JsonVal) × List Char)
  | 0, _ => none
  | fuel + 1, cs =>
    match parseJsonPair cs with
    | some (p, r1) =>
      match skipWs r1 with
      | ',' :: r2 =>
        match parseJsonPairsAux fuel r2 with
        | some (ps, r3) => some (p :: ps, r3)
        | none => none
      | '}' :: r2 => some ([p], r2)
      | _ => none
    | none => none

/-- Parse a whole JSON object `{ "k": v, ... }`; anything else fails.
Models the JavaScript builtin `JSON.parse` on the flat string/null-valued
objects this code base's prompts mandate — on any other text `JSON.parse`
throws, modelled as `none`. -/
def parseJsonObject (s : String) : Option (List (String × JsonVal)) :=
  match skipWs s.data with
  | '{' :: rest =>
    match skipWs rest with
    | '}' :: r2 => if skipWs r2 = [] then some [] else none
    | cs =>
      match parseJsonPairsAux (cs.length + 1) cs with
      | some (ps, r2) => if skipWs r2 = [] then some ps else none
      | none => none
  | _ => none

/-- Read a string-valued field from a parsed object (later duplicate keys
overwrite earlier ones, as in `JSON.parse`). -/
def jsonLookupStr (ps : List (String × JsonVal)) (k : String) : Option String :=
  match ps.reverse.lookup k with
  | some (JsonVal.str s) => some s
  | _ => none

/-- The result record of the word-details call: models `Partial<Word>`
restricted to the string fields the prompt asks Gemini for (the remaining
`Word` fields — id, gradeLevel, isCustom, unit — are never produced by
this call path). A missing or `null` field is `none`. -/
structure WordPayload where
  term : Option String
  pronunciation : Option String
  partOfSpeech : Option String
  meaning : Option String
  exampleSentence : Option String
  exampleSentenceMeaning : Option String
deriving DecidableEq, Repr

/-- `JSON.parse(jsonStr) as Partial<Word>` (source line 412): decode the
text as a JSON object and project out the word fields; `none` models the
`SyntaxError` throw on malformed text. -/
def parseWordJson (s : String) : Option WordPayload :=
  match parseJsonObject s with
  | some ps => some
      { term := jsonLookupStr ps "term"
        pronunciation := jsonLookupStr ps "pronunciation"
        partOfSpeech := jsonLookupStr ps "partOfSpeech"
        meaning := jsonLookupStr ps "meaning"
        exampleSentence := jsonLookupStr ps "exampleSentence"
        exampleSentenceMeaning := jsonLookupStr ps "exampleSentenceMeaning" }
  | none => none

/-- JavaScript falsiness of an optional string field (`!data.field`):
true when the field is missing, `null`, or the empty string. -/
def falsyOpt (o : Option String) : Bool :=
  o.getD "" == ""

/-- The degraded fallback result `{ term }` returned when required fields
are still missing on the last attempt (source line 423). -/
def degradedWord (term : String) : WordPayload :=
  { term := some term, pronunciation := none, partOfSpeech := none
    meaning := none, exampleSentence := none, exampleSentenceMeaning := none }

/-- JavaScript `\w`: ASCII letters, digits and underscore. -/
def isWordChar (c : Char) : Bool :=
  c.isAlphanum || c == '_'

/-- The three-backtick fence delimiter. -/
def fenceDelim : List Char :=
  [Char.ofNat 96, Char.ofNat 96, Char.ofNat 96]

/-- The fence-stripping step (source lines 406-410): mirrors matching
`jsonStr` against the anchored regex  ^ fence (\w*)? \s* \n? (.*?) \n? \s* fence $
(dot-all) and, when it matches with a non-empty group 2, replacing
`jsonStr` by that group trimmed.  With the lazy middle group and both
anchors, group 2 is the text strictly between the opening fence line
(fence, optional word-character tag, whitespace) and the closing fence
(preceded by optional whitespace). -/
def stripFence (s : String) : String :=
  let cs := s.data
  if cs.take 3 = fenceDelim then
    let body := ((cs.drop 3).dropWhile isWordChar).dropWhile isSpaceChar
    let rev := body.reverse
    if rev.take 3 = fenceDelim then
      let inner := ((rev.drop 3).dropWhile isSpaceChar).reverse
      if inner = [] then s else strTrim (String.mk inner)
    else s
  else s

/-- Outcome of one provider call made by the word-details operation: the
resolved response (carrying its optional `.text` payload) or a rejection
with an error value. -/
inductive CallResult where
  | ok (text : Option String)
  | err (e : RawError)
deriving DecidableEq, Repr

/-- The error value produced when `JSON.parse` throws on non-JSON text: a
plain JavaScript `SyntaxError`, which `parseGeminiError` sees as a general
error object with a message and no status. -/
def jsonParseFailure : RawError :=
  RawError.general "Unexpected token: response text is not valid JSON" none

/-- Observable trace of the retry loop of one executor invocation, with
result payload type `α` (`WordPayload` for the word-details call, the
image-bytes string for the image call). -/
structure RetryTrace (α : Type) where
  result : Option α
  calls : Nat
  delays : List Nat
  toasts : List Toast
  cooldown : CooldownState
  scheduledTimers : Nat
deriving DecidableEq, Repr

/-- What one attempt of a retry loop decides: return from the function
with the given result and effects, or notify and retry after a backoff
sleep. -/
inductive AttemptStep (α : Type) where
  | done (result : Option α) (toasts : List Toast)
      (cooldown : CooldownState) (scheduled : Nat)
  | retry (toast : Toast)

/-- The `catch` block both retry loops repeat verbatim (source lines
428-454 and 704-730): classify; on quota exhaustion activate the cooldown
and return null; else with attempts remaining notify (rate-limit vs
generic wording) and retry; else notify the terminal failure and return
null. -/
def errorCatchStep {α : Type} (e : RawError) (isLast : Bool)
    (cd : CooldownState) : AttemptStep α :=
  let p := parseGeminiError e
  if p.isQuotaExhaustedError then
    let act := setGeminiQuotaExhaustedCooldown cd
    AttemptStep.done none act.toasts act.state act.scheduled
  else if isLast then
    AttemptStep.done none
      [(if p.isRateLimitErrorForRetry then ToastMsg.rateLimitFinal
        else ToastMsg.genericFinal, ToastType.error)] cd 0
  else
    AttemptStep.retry
      (if p.isRateLimitErrorForRetry then ToastMsg.rateLimitRetry
       else ToastMsg.genericRetry, ToastType.warning)

/-- One attempt of `generateWordDetailsWithGemini`'s loop body (source
lines 394-455): on a resolved call, trim, strip the fence, `JSON.parse`
(a parse failure throws into the catch block), check the required fields
(retry while attempts remain, degraded `{ term }` on the last attempt),
or return the parsed payload; on a rejected call run the catch block. -/
def genAttemptStep (term : String) (res : CallResult) (isLast : Bool)
    (cd : CooldownState) : AttemptStep WordPayload :=
  match res with
  | CallResult.ok text =>
    let jsonStr := stripFence (strTrim (text.getD ""))
    match parseWordJson jsonStr with
    | some data =>
      if falsyOpt data.partOfSpeech || falsyOpt data.meaning ||
          falsyOpt data.exampleSentence then
        if isLast then
          AttemptStep.done (some (degradedWord term))
            [(ToastMsg.missingFinal, ToastType.error)] cd 0
        else
          AttemptStep.retry (ToastMsg.missingRetry, ToastType.warning)
      else
        AttemptStep.done (some data) [] cd 0
    | none => errorCatchStep jsonParseFailure isLast cd
  | CallResult.err e => errorCatchStep e isLast cd

/-- The retry loop `for (let i = 0; i <= retries; i++)` both executors
repeat (source lines 393-456 and 679-732), parameterised by the per-attempt
body `step i isLast cd`: `i` is the current attempt index and `remaining`
the number of attempts still allowed after it (`remaining = retries - i`,
so `i < retries` iff `remaining > 0`).  A retry sleeps `currentDelay` and
doubles it.  The `remaining = 0` retry branch is unreachable (no step
retries when `isLast = true`); it mirrors the defensive fallback after the
loop (source lines 460-462 and 736-738). -/
def runRetryLoop {α : Type} (step : Nat → Bool → CooldownState → AttemptStep α) :
    Nat → Nat → Nat → CooldownState → RetryTrace α
  | i, 0, _, cd =>
    match step i true cd with
    | AttemptStep.done res ts cd2 sch =>
      { result := res, calls := 1, delays := [], toasts := ts
        cooldown := cd2, scheduledTimers := sch }
    | AttemptStep.retry _ =>
      { result := none, calls := 1, delays := []
        toasts := [(ToastMsg.loopExhausted, ToastType.error)]
        cooldown := cd, scheduledTimers := 0 }
  | i, r + 1, d, cd =>
    match step i false cd with
    | AttemptStep.done res ts cd2 sch =>
      { result := res, calls := 1, delays := [], toasts := ts
        cooldown := cd2, scheduledTimers := sch }
    | AttemptStep.retry t =>
      let rest := runRetryLoop step (i + 1) r (d * 2) cd
      { result := rest.result, calls := rest.calls + 1
        delays := d :: rest.delays, toasts := t :: rest.toasts
        cooldown := rest.cooldown, scheduledTimers := rest.scheduledTimers }

/-- The retry loop of `generateWordDetailsWithGemini` (source lines
393-456). -/
def genAttempts (term : String) (op : Nat → CallResult)
    (i remaining currentDelay : Nat) (cd : CooldownState) :
    RetryTrace WordPayload :=
  runRetryLoop (fun j l cd2 => genAttemptStep term (op j) l cd2)
    i remaining currentDelay cd

/-- Trace of one whole `generateWordDetailsWithGemini` invocation;
`cooldownChecks` counts the executor's reads of
`isCurrentlyGeminiQuotaExhausted` (the single check at source line 370 —
the read inside `setGeminiQuotaExhaustedCooldown` is the manager's own
idempotency guard, not an executor-level consultation). -/
structure GenOutcome extends RetryTrace WordPayload where
  cooldownChecks : Nat
deriving DecidableEq, Repr

/-- `generateWordDetailsWithGemini` (source lines 365-463): fail fast
without an `ai` handle; consult the cooldown flag once and skip the call
when active; otherwise run the retry loop starting at attempt 0 with the
initial backoff delay.  `hasAi` models `ai` being non-null, `op i` the
provider call made on attempt `i`, and `retries`/`initialDelay` the
call-site policy (defaults 2 and 7000 in the source). -/
def generateWordDetailsWithGemini (term : String) (hasAi : Bool)
    (op : Nat → CallResult) (retries initialDelay : Nat)
    (cd : CooldownState) : GenOutcome :=
  if !hasAi then
    { result := none, calls := 0, delays := []
      toasts := [(ToastMsg.noApiKey, ToastType.warning)]
      cooldown := cd, scheduledTimers := 0, cooldownChecks := 0 }
  else if cd.isActive then
    { result := none, calls := 0, delays := []
      toasts := [(ToastMsg.quotaSkip, ToastType.warning)]
      cooldown := cd, scheduledTimers := 0, cooldownChecks := 1 }
  else
    { toRetryTrace := genAttempts term op 0 retries initialDelay cd
      cooldownChecks := 1 }

/-- Outcome of one provider call made by the image operation: the resolved
response, collapsed to its optional `generatedImages[0].image?.imageBytes`
payload (`none` models a missing/empty `generatedImages` array or a missing
`image`/`imageBytes` field), or a rejection with an error value. -/
inductive ImgCallResult where
  | ok (imageBytes : Option String)
  | err (e : RawError)
deriving DecidableEq, Repr

/-- One attempt of `generateImageForWordWithGemini`'s loop body (source
lines 681-731): when the response carries truthy image bytes, toast
success and return them; when the bytes are missing, retry while attempts
remain and fail with an error toast on the last attempt; on a rejected
call run the shared catch block. -/
def imgAttemptStep (res : ImgCallResult) (isLast : Bool)
    (cd : CooldownState) : AttemptStep String :=
  match res with
  | ImgCallResult.ok bytes =>
    match bytes with
    | some b =>
      if b == "" then
        if isLast then
          AttemptStep.done none [(ToastMsg.imageMissingFinal, ToastType.error)] cd 0
        else
          AttemptStep.retry (ToastMsg.imageMissingRetry, ToastType.warning)
      else
        AttemptStep.done (some b) [(ToastMsg.imageDone, ToastType.success)] cd 0
    | none =>
      if isLast then
        AttemptStep.done none [(ToastMsg.imageMissingFinal, ToastType.error)] cd 0
      else
        AttemptStep.retry (ToastMsg.imageMissingRetry, ToastType.warning)
  | ImgCallResult.err e => errorCatchStep e isLast cd

/-- The retry loop of `generateImageForWordWithGemini` (source lines
679-732). -/
def imgAttempts (op : Nat → ImgCallResult)
    (i remaining currentDelay : Nat) (cd : CooldownState) :
    RetryTrace String :=
  runRetryLoop (fun j l cd2 => imgAttemptStep (op j) l cd2)
    i remaining currentDelay cd

/-- Trace of one whole `generateImageForWordWithGemini` invocation. -/
structure ImgOutcome extends RetryTrace String where
  cooldownChecks : Nat
deriving DecidableEq, Repr

/-- `generateImageForWordWithGemini` (source lines 664-739): fail fast
without an `ai` handle; consult the cooldown flag once and skip the call
when active; otherwise run the retry loop starting at attempt 0 with the
initial backoff delay (call-site policy defaults: retries 1, delay
8000). -/
def generateImageForWordWithGemini (hasAi : Bool) (op : Nat → ImgCallResult)
    (retries initialDelay : Nat) (cd : CooldownState) : ImgOutcome :=
  if !hasAi then
    { result := none, calls := 0, delays := []
      toasts := [(ToastMsg.noApiKey, ToastType.warning)]
      cooldown := cd, scheduledTimers := 0, cooldownChecks := 0 }
  else if cd.isActive then
    { result := none, calls := 0, delays := []
      toasts := [(ToastMsg.quotaSkip, ToastType.warning)]
      cooldown := cd, scheduledTimers := 0, cooldownChecks := 1 }
  else
    { toRetryTrace := imgAttempts op 0 retries initialDelay cd
      cooldownChecks := 1 }

/-- The `role` field of a chat transcript entry (`'user' | 'model'`). -/
inductive ChatRole where
  | user
  | model
deriving DecidableEq, Repr

/-- A transcript entry of the AI tutor chat (`ChatMessage`, source lines
2915-2918). -/
structure ChatMsg where
  role : ChatRole
  text : String
deriving DecidableEq, Repr

/-- A user-role transcript entry. -/
def userMsg (text : String) : ChatMsg := { role := ChatRole.user, text := text }

/-- A model-role transcript entry. -/
def modelMsg (text : String) : ChatMsg := { role := ChatRole.model, text := text }

/-- How the streaming send resolves: the `sendMessageStream` promise
rejects before any fragment is delivered, or it yields a list of text
fragments and then optionally throws mid-stream. -/
inductive StreamOutcome where
  | rejected (e : RawError)
  | streamed (frags : List String) (midErr : Option RawError)

/-- The body of the `for await` loop over stream chunks (source lines
2981-2988): extend the accumulated text with the fragment and replace the
last transcript entry with the accumulation so far. -/
def chatStreamStep (st : List ChatMsg × String) (frag : String) :
    List ChatMsg × String :=
  let acc := st.2 ++ frag
  (st.1.dropLast ++ [modelMsg acc], acc)

/-- Result of one `handleSendMessage` invocation: the final transcript and
the toasts emitted. -/
structure ChatSendResult where
  messages : List ChatMsg
  toasts : List Toast
deriving DecidableEq, Repr

/-- `handleSendMessage` (source lines 2966-2998): bail out on empty
trimmed input, while loading, or without a chat handle; append the user's
message; await the stream — on rejection the catch block removes the last
transcript entry (`prev.slice(0, -1)`) and toasts the error; otherwise
append the `"..."` placeholder, replace the last entry with the growing
accumulated text after each fragment, and on a mid-stream throw remove
the last entry and toast the error. -/
def handleSendMessage (messages : List ChatMsg) (userInput : String)
    (isLoading : Bool) (hasChat : Bool) (outcome : StreamOutcome) :
    ChatSendResult :=
  let trimmed := strTrim userInput
  if trimmed == "" || isLoading || !hasChat then
    { messages := messages, toasts := [] }
  else
    let m1 := messages ++ [userMsg trimmed]
    match outcome with
    | StreamOutcome.rejected _ =>
      { messages := m1.dropLast, toasts := [(ToastMsg.chatError, ToastType.error)] }
    | StreamOutcome.streamed frags midErr =>
      let m2 := m1 ++ [modelMsg "..."]
      let final := frags.foldl chatStreamStep (m2, "")
      match midErr with
      | some _ =>
        { messages := final.1.dropLast
          toasts := [(ToastMsg.chatError, ToastType.error)] }
      | none => { messages := final.1, toasts := [] }

/-- All three required fields (`partOfSpeech`, `meaning`,
`exampleSentence`) are present and truthy — the condition under which the
executor returns the parsed payload (negation of source line 414). -/
def isFullPayload (w : WordPayload) : Bool :=
  !(falsyOpt w.partOfSpeech || falsyOpt w.meaning || falsyOpt w.exampleSentence)

/-- A returned result is a fully validated payload (as opposed to null,
or the degraded `{ term }` fallback whose required fields are all
absent). -/
def cleanResult : Option WordPayload → Bool
  | some w => isFullPayload w
  | none => false

/-- The retry loop ended by returning a fully validated payload. -/
def isCleanSuccess (t : RetryTrace WordPayload) : Bool :=
  cleanResult t.result

/-- C1 counterexample input: a structured provider error whose numeric code
is present but zero, with a quota-exhaustion message. -/
def c1Err : RawError := RawError.structured "quota exceeded" (some 0) none

/-- C2 counterexample input: status code 429, no "quota" in the message,
but provider status tag `RESOURCE_EXHAUSTED`. -/
def c2Err : RawError :=
  RawError.structured "rate limit reached" (some 429) (some "RESOURCE_EXHAUSTED")

/-- Witness input for `c2_rate_limit`: a plain 429 error with no quota
wording and no provider status tag. -/
def c2WitnessErr : RawError := RawError.general "Too Many Requests" (some 429)

/-- A quota-exhaustion error: HTTP 429 with quota wording. -/
def quotaErr429 : RawError :=
  RawError.structured "Quota exceeded for quota metric" (some 429) none

/-- A transient network error: no status code, no quota or rate-limit
wording. -/
def transientErr : RawError := RawError.general "network error" none

/-- A complete word-details JSON payload (all required fields present). -/
def goodJson : String :=
  "\x7b\"term\":\"cat\",\"partOfSpeech\":\"noun\",\"meaning\":\"m\",\"exampleSentence\":\"e\"\x7d"

/-- What `goodJson` decodes to. -/
def goodWord : WordPayload :=
  { term := some "cat", pronunciation := none, partOfSpeech := some "noun"
    meaning := some "m", exampleSentence := some "e"
    exampleSentenceMeaning := none }

/-- A parseable payload missing the required `exampleSentence` field. -/
def missingJson : String :=
  "\x7b\"term\":\"cat\",\"partOfSpeech\":\"noun\",\"meaning\":\"m\"\x7d"

/-- What `missingJson` decodes to. -/
def missingWord : WordPayload :=
  { term := some "cat", pronunciation := none, partOfSpeech := some "noun"
    meaning := some "m", exampleSentence := none
    exampleSentenceMeaning := none }

/-- The C6 scenario operation: transient failures on attempts 0 and 1, a
complete payload on attempt 2. -/
def c6Op : Nat → CallResult := fun i =>
  if i ≤ 1 then CallResult.err transientErr else CallResult.ok (some goodJson)

/-- The C8 scenario: every provider call resolves with text that is not
JSON ("hello"), with policy retries = 1, initialDelay = 1000, starting
from an inactive cooldown. -/
def c8Outcome : GenOutcome :=
  generateWordDetailsWithGemini "cat" true
    (fun _ => CallResult.ok (some "hello")) 1 1000
    { isActive := false, pendingTimeout := false }

/-- The C9 scenario: an image-generation invocation whose first provider
call resolves with image bytes present. -/
def c9ImgOutcome : ImgOutcome :=
  generateImageForWordWithGemini true
    (fun _ => ImgCallResult.ok (some "bytes")) 1 8000
    { isActive := false, pendingTimeout := false }

lemma optIntFalsy_eq (o : Option Int) :
    optIntFalsy o = (o == none || o == some 0) := by
  cases o with
  | none => rfl
  | some n => simp [optIntFalsy, Option.getD]

lemma parseGeminiError_isQuota (e : RawError) :
    (parseGeminiError e).isQuotaExhaustedError
      = isQuotaExhaustedOf (extractGeminiError e) := rfl

lemma parseGeminiError_isRateLimit (e : RawError) :
    (parseGeminiError e).isRateLimitErrorForRetry
      = isRateLimitOf (extractGeminiError e) := rfl

lemma parseGeminiError_statusCode (e : RawError) :
    (parseGeminiError e).statusCode = (extractGeminiError e).statusCode := rfl

lemma parseGeminiError_message (e : RawError) :
    (parseGeminiError e).detailedErrorMessage
      = (extractGeminiError e).detailedErrorMessage := rfl

lemma parseGeminiError_tag (e : RawError) :
    (parseGeminiError e).geminiErrorStatus
      = (extractGeminiError e).geminiErrorStatus := rfl

end GeminiClient

namespace GeminiClient

/-- Claim C1 (counterexample): For the error `{error: {message: "quota
exceeded", code: 0}}` the code classifies `isQuotaExhausted = true`
(JavaScript `!statusCode` is true at 0), while the claim's predicate —
which requires the status code to be *absent* for that disjunct — is
false: the claimed equivalence fails at this input. -/
theorem c1_quota_predicate_counterexample :
    (parseGeminiError c1Err).isQuotaExhaustedError = true ∧
    claimQuotaExhausted (parseGeminiError c1Err) = false := by
  constructor <;> decide

/-- Claim C1 (amended): For every error value, `parseGeminiError` returns
`isQuotaExhausted = true` exactly when (statusCode == 429 and the
lower-cased message contains "quota") or the provider status tag equals
"RESOURCE_EXHAUSTED" or (statusCode is *absent or equal to 0* and the
lower-cased message contains "quota" and contains "exceeded" or
"exhausted"); for every other error it returns `isQuotaExhausted = false`. -/
theorem c1_quota_predicate (e : RawError) :
    (parseGeminiError e).isQuotaExhaustedError =
      claimQuotaExhaustedAmended (parseGeminiError e) := by
  rw [parseGeminiError_isQuota]
  unfold claimQuotaExhaustedAmended
  rw [parseGeminiError_statusCode, parseGeminiError_message,
    parseGeminiError_tag, ← optIntFalsy_eq]
  unfold isQuotaExhaustedOf
  generalize extractGeminiError e = x
  generalize (x.statusCode == some 429) = a
  generalize optIntFalsy x.statusCode = b
  generalize strIncludes x.detailedErrorMessage "quota" = q
  generalize (x.geminiErrorStatus == some "RESOURCE_EXHAUSTED") = r
  generalize strIncludes x.detailedErrorMessage "exceeded" = u
  generalize strIncludes x.detailedErrorMessage "exhausted" = v
  cases a <;> cases b <;> cases q <;> cases r <;> cases u <;> cases v <;> rfl

/-- Claim C2 (counterexample): An error with statusCode 429 whose message
does not contain "quota" but whose provider status tag is
`RESOURCE_EXHAUSTED` is classified `isQuotaExhausted = true` and
`isRateLimitRetryable = false`, refuting the claim that 429-without-"quota"
alone (no other precondition) forces `isRateLimitRetryable = true`. -/
theorem c2_rate_limit_counterexample :
    (parseGeminiError c2Err).statusCode = some 429 ∧
    strIncludes (parseGeminiError c2Err).detailedErrorMessage "quota" = false ∧
    (parseGeminiError c2Err).isRateLimitErrorForRetry = false ∧
    (parseGeminiError c2Err).isQuotaExhaustedError = true := by
  refine ⟨?_, ?_, ?_, ?_⟩ <;> decide

/-- Claim C2 (amended): For every error with statusCode == 429 whose message
does not contain "quota" *and whose provider status tag is not
"RESOURCE_EXHAUSTED"*, `parseGeminiError` returns
`isRateLimitRetryable = true` and `isQuotaExhausted = false`. -/
theorem c2_rate_limit (e : RawError)
    (h1 : (parseGeminiError e).statusCode = some 429)
    (h2 : strIncludes (parseGeminiError e).detailedErrorMessage "quota" = false)
    (h3 : ((parseGeminiError e).geminiErrorStatus
            == some "RESOURCE_EXHAUSTED") = false) :
    (parseGeminiError e).isRateLimitErrorForRetry = true ∧
    (parseGeminiError e).isQuotaExhaustedError = false := by
  have hq : (parseGeminiError e).isQuotaExhaustedError = false := by
    show isQuotaExhaustedOf (extractGeminiError e) = false
    have h1' : (extractGeminiError e).statusCode = some 429 := h1
    have h2' : strIncludes (extractGeminiError e).detailedErrorMessage "quota"
        = false := h2
    have h3' : ((extractGeminiError e).geminiErrorStatus
        == some "RESOURCE_EXHAUSTED") = false := h3
    simp [isQuotaExhaustedOf, h1', h2', h3', optIntFalsy]
  refine ⟨?_, hq⟩
  show isRateLimitOf (extractGeminiError e) = true
  have h1' : (extractGeminiError e).statusCode = some 429 := h1
  have hq' : isQuotaExhaustedOf (extractGeminiError e) = false := hq
  simp [isRateLimitOf, h1', hq']

/-- Claim C2 (witness): The amended statement applied at the concrete error
`{message: "Too Many Requests", status: 429}`. -/
theorem c2_rate_limit_witness :
    (parseGeminiError c2WitnessErr).isRateLimitErrorForRetry = true ∧
    (parseGeminiError c2WitnessErr).isQuotaExhaustedError = false :=
  c2_rate_limit c2WitnessErr (by decide) (by decide) (by decide)

end GeminiClient

namespace GeminiClient

/-- Claim C3: Calling `setGeminiQuotaExhaustedCooldown` a second time while
the cooldown is already active schedules no new deactivation timer and
emits no duplicate notification: two activations in immediate succession
produce exactly one scheduled deactivation and exactly one "activated"
notification, and the `isActive` flag transitions only
Inactive→Active→Inactive (the first call activates, the second leaves the
state untouched, the timer callback deactivates). -/
theorem c3_activate_idempotent (s : CooldownState) (h : s.isActive = false) :
    (setGeminiQuotaExhaustedCooldown s).state.isActive = true ∧
    (setGeminiQuotaExhaustedCooldown s).toasts
      = [(ToastMsg.cooldownActivated, ToastType.error)] ∧
    (setGeminiQuotaExhaustedCooldown s).scheduled = 1 ∧
    setGeminiQuotaExhaustedCooldown (setGeminiQuotaExhaustedCooldown s).state
      = { state := (setGeminiQuotaExhaustedCooldown s).state
          toasts := [], scheduled := 0, cleared := 0 } ∧
    (cooldownTimerFire (setGeminiQuotaExhaustedCooldown s).state).1.isActive
      = false := by
  simp [setGeminiQuotaExhaustedCooldown, cooldownTimerFire, h]

/-- Claim C3 (witness): The idempotency statement at the initial process
state (inactive, no pending timer). -/
theorem c3_activate_idempotent_witness :
    (setGeminiQuotaExhaustedCooldown ⟨false, false⟩).state.isActive = true ∧
    (setGeminiQuotaExhaustedCooldown ⟨false, false⟩).toasts
      = [(ToastMsg.cooldownActivated, ToastType.error)] ∧
    (setGeminiQuotaExhaustedCooldown ⟨false, false⟩).scheduled = 1 ∧
    setGeminiQuotaExhaustedCooldown
        (setGeminiQuotaExhaustedCooldown ⟨false, false⟩).state
      = { state := (setGeminiQuotaExhaustedCooldown ⟨false, false⟩).state
          toasts := [], scheduled := 0, cleared := 0 } ∧
    (cooldownTimerFire
        (setGeminiQuotaExhaustedCooldown ⟨false, false⟩).state).1.isActive
      = false :=
  c3_activate_idempotent ⟨false, false⟩ rfl

/-- Claim C4: If the quota cooldown is active when `execute` is invoked (and
a credential is present), `execute` returns Failure (null) with zero calls
made to the operation; and in every invocation with a credential —
whatever the cooldown state and however many retries the operation
forces — the cooldown flag is consulted exactly once, before attempt 0,
never again on later retry iterations. -/
theorem c4_cooldown_short_circuit (term : String) (op : Nat → CallResult)
    (retries initialDelay : Nat) (cd : CooldownState)
    (h : cd.isActive = true) :
    (generateWordDetailsWithGemini term true op retries initialDelay cd).result
      = none ∧
    (generateWordDetailsWithGemini term true op retries initialDelay cd).calls
      = 0 ∧
    (generateWordDetailsWithGemini term true op retries initialDelay cd).toasts
      = [(ToastMsg.quotaSkip, ToastType.warning)] ∧
    ∀ cd2 : CooldownState,
      (generateWordDetailsWithGemini term true op retries initialDelay
        cd2).cooldownChecks = 1 := by
  refine ⟨?_, ?_, ?_, ?_⟩
  · simp [generateWordDetailsWithGemini, h]
  · simp [generateWordDetailsWithGemini, h]
  · simp [generateWordDetailsWithGemini, h]
  · intro cd2
    by_cases h2 : cd2.isActive = true <;>
      simp [generateWordDetailsWithGemini, h2]

/-- Claim C4 (witness): The short-circuit at a concrete active cooldown with
an always-failing operation and policy retries = 2. -/
theorem c4_cooldown_short_circuit_witness :
    (generateWordDetailsWithGemini "cat" true
        (fun _ => CallResult.err transientErr) 2 7000 ⟨true, true⟩).result
      = none ∧
    (generateWordDetailsWithGemini "cat" true
        (fun _ => CallResult.err transientErr) 2 7000 ⟨true, true⟩).calls
      = 0 ∧
    (generateWordDetailsWithGemini "cat" true
        (fun _ => CallResult.err transientErr) 2 7000 ⟨true, true⟩).toasts
      = [(ToastMsg.quotaSkip, ToastType.warning)] ∧
    (generateWordDetailsWithGemini "cat" true
        (fun _ => CallResult.err transientErr) 2 7000
        ⟨false, false⟩).cooldownChecks = 1 :=
  ⟨(c4_cooldown_short_circuit "cat" (fun _ => CallResult.err transientErr)
      2 7000 ⟨true, true⟩ rfl).1,
   (c4_cooldown_short_circuit "cat" (fun _ => CallResult.err transientErr)
      2 7000 ⟨true, true⟩ rfl).2.1,
   (c4_cooldown_short_circuit "cat" (fun _ => CallResult.err transientErr)
      2 7000 ⟨true, true⟩ rfl).2.2.1,
   (c4_cooldown_short_circuit "cat" (fun _ => CallResult.err transientErr)
      2 7000 ⟨true, true⟩ rfl).2.2.2 ⟨false, false⟩⟩

end GeminiClient

namespace GeminiClient

/-- Claim C5: For an operation that raises a quota-exhausted error on every
call, `execute` invokes the operation exactly once regardless of
`maxRetries`, returns Failure (null) without sleeping any backoff delay,
and the cooldown is active (with its deactivation timer scheduled)
immediately after the return, having emitted exactly the activation
notification. -/
theorem c5_quota_halts_immediately (term : String) (op : Nat → CallResult)
    (retries initialDelay : Nat) (cd : CooldownState)
    (hcd : cd.isActive = false) (e : RawError)
    (hop : ∀ i, op i = CallResult.err e)
    (hq : (parseGeminiError e).isQuotaExhaustedError = true) :
    (generateWordDetailsWithGemini term true op retries initialDelay cd).result
      = none ∧
    (generateWordDetailsWithGemini term true op retries initialDelay cd).calls
      = 1 ∧
    (generateWordDetailsWithGemini term true op retries initialDelay cd).delays
      = [] ∧
    (generateWordDetailsWithGemini term true op retries initialDelay
      cd).cooldown.isActive = true ∧
    (generateWordDetailsWithGemini term true op retries initialDelay
      cd).scheduledTimers = 1 ∧
    (generateWordDetailsWithGemini term true op retries initialDelay cd).toasts
      = [(ToastMsg.cooldownActivated, ToastType.error)] := by
  rcases retries with _ | r <;>
    simp [generateWordDetailsWithGemini, genAttempts, runRetryLoop,
      genAttemptStep, errorCatchStep, setGeminiQuotaExhaustedCooldown,
      hcd, hop, hq]

/-- Claim C5 (witness): The statement at a concrete 429-with-quota-wording
error, policy retries = 2, starting from the initial cooldown state. -/
theorem c5_quota_halts_immediately_witness :
    (generateWordDetailsWithGemini "cat" true
        (fun _ => CallResult.err quotaErr429) 2 7000 ⟨false, false⟩).result
      = none ∧
    (generateWordDetailsWithGemini "cat" true
        (fun _ => CallResult.err quotaErr429) 2 7000 ⟨false, false⟩).calls
      = 1 ∧
    (generateWordDetailsWithGemini "cat" true
        (fun _ => CallResult.err quotaErr429) 2 7000 ⟨false, false⟩).delays
      = [] ∧
    (generateWordDetailsWithGemini "cat" true
        (fun _ => CallResult.err quotaErr429) 2 7000
        ⟨false, false⟩).cooldown.isActive = true ∧
    (generateWordDetailsWithGemini "cat" true
        (fun _ => CallResult.err quotaErr429) 2 7000
        ⟨false, false⟩).scheduledTimers = 1 ∧
    (generateWordDetailsWithGemini "cat" true
        (fun _ => CallResult.err quotaErr429) 2 7000 ⟨false, false⟩).toasts
      = [(ToastMsg.cooldownActivated, ToastType.error)] :=
  c5_quota_halts_immediately "cat" (fun _ => CallResult.err quotaErr429)
    2 7000 ⟨false, false⟩ rfl quotaErr429 (fun _ => rfl) (by decide)

lemma chatStreamStep_fold (frags : List String) :
    ∀ (base : List ChatMsg) (x : ChatMsg) (acc : String),
      ∃ y, (List.foldl chatStreamStep (base ++ [x], acc) frags).1
            = base ++ [y] := by
  induction frags with
  | nil => exact fun base x acc => ⟨x, rfl⟩
  | cons f fs ih =>
    intro base x acc
    have hstep : chatStreamStep (base ++ [x], acc) f
        = (base ++ [modelMsg (acc ++ f)], acc ++ f) := by
      simp [chatStreamStep, List.dropLast_concat]
    rw [List.foldl_cons, hstep]
    exact ih base (modelMsg (acc ++ f)) (acc ++ f)

/-- Claim C10: In the streaming chat send handler, the failure branch
removes the last transcript entry unconditionally; consequently, when the
streaming request rejects before any fragment arrives (before the
provisional placeholder entry is appended), the entry removed is the
user's own just-appended message — the final transcript equals the one
from before the send, the user's message gone.  By contrast, when the
failure happens mid-stream (after the placeholder entry was appended),
the entry removed is the provisional model entry and the user's message
survives. -/
theorem c10_reject_drops_user_message (messages : List ChatMsg)
    (userInput : String) (e : RawError)
    (h : (strTrim userInput == "") = false) :
    (handleSendMessage messages userInput false true
        (StreamOutcome.rejected e)).messages = messages ∧
    (handleSendMessage messages userInput false true
        (StreamOutcome.rejected e)).toasts
      = [(ToastMsg.chatError, ToastType.error)] ∧
    ∀ (frags : List String) (e2 : RawError),
      (handleSendMessage messages userInput false true
          (StreamOutcome.streamed frags (some e2))).messages
        = messages ++ [userMsg (strTrim userInput)] := by
  refine ⟨?_, ?_, ?_⟩
  · simp [handleSendMessage, h, List.dropLast_concat]
  · simp [handleSendMessage, h]
  · intro frags e2
    simp only [handleSendMessage, h, Bool.false_or, Bool.not_true,
      Bool.or_false, if_false]
    obtain ⟨y, hy⟩ := chatStreamStep_fold frags
      (messages ++ [userMsg (strTrim userInput)]) (modelMsg "...") ""
    rw [hy, List.dropLast_concat]
    simp

/-- Claim C10 (witness): The statement at a concrete one-entry transcript
and input `" question "`, with the stream rejecting, and the contrast
case after one delivered fragment. -/
theorem c10_reject_drops_user_message_witness :
    (handleSendMessage [modelMsg "hi"] " question " false true
        (StreamOutcome.rejected (RawError.plain "x"))).messages
      = [modelMsg "hi"] ∧
    (handleSendMessage [modelMsg "hi"] " question " false true
        (StreamOutcome.rejected (RawError.plain "x"))).toasts
      = [(ToastMsg.chatError, ToastType.error)] ∧
    (handleSendMessage [modelMsg "hi"] " question " false true
        (StreamOutcome.streamed ["a"] (some (RawError.plain "y")))).messages
      = [modelMsg "hi"] ++ [userMsg (strTrim " question ")] :=
  ⟨(c10_reject_drops_user_message [modelMsg "hi"] " question "
      (RawError.plain "x") (by decide)).1,
   (c10_reject_drops_user_message [modelMsg "hi"] " question "
      (RawError.plain "x") (by decide)).2.1,
   (c10_reject_drops_user_message [modelMsg "hi"] " question "
      (RawError.plain "x") (by decide)).2.2 ["a"] (RawError.plain "y")⟩

end GeminiClient

namespace GeminiClient

lemma runRetryLoop_delays {α : Type}
    (step : Nat → Bool → CooldownState → AttemptStep α) :
    ∀ (r i d : Nat) (cd : CooldownState),
      (runRetryLoop step i r d cd).delays =
        (List.range (runRetryLoop step i r d cd).delays.length).map
          (fun k => d * 2 ^ k) := by
  intro r
  induction r with
  | zero =>
    intro i d cd
    cases h : step i true cd <;> simp [runRetryLoop, h]
  | succ r ih =>
    intro i d cd
    cases h : step i false cd with
    | done res ts cd2 sch => simp [runRetryLoop, h]
    | retry t =>
      have ihh := ih (i + 1) (d * 2) cd
      have hmap :
          (List.range (runRetryLoop step (i + 1) r (d * 2) cd).delays.length).map
            ((fun k => d * 2 ^ k) ∘ Nat.succ)
          = (List.range (runRetryLoop step (i + 1) r (d * 2) cd).delays.length).map
            (fun k => d * 2 * 2 ^ k) := by
        apply List.map_congr_left
        intro k _
        simp only [Function.comp, Nat.succ_eq_add_one, pow_succ]
        ring
      simp only [runRetryLoop, h, List.length_cons]
      rw [List.range_succ_eq_map, List.map_cons, List.map_map, hmap, ← ihh]
      simp

lemma runRetryLoop_calls {α : Type}
    (step : Nat → Bool → CooldownState → AttemptStep α) :
    ∀ (r i d : Nat) (cd : CooldownState),
      (runRetryLoop step i r d cd).calls =
        (runRetryLoop step i r d cd).delays.length + 1 := by
  intro r
  induction r with
  | zero =>
    intro i d cd
    cases h : step i true cd <;> simp [runRetryLoop, h]
  | succ r ih =>
    intro i d cd
    cases h : step i false cd with
    | done res ts cd2 sch => simp [runRetryLoop, h]
    | retry t => simp [runRetryLoop, h, ih (i + 1) (d * 2) cd]

lemma errorCatchStep_done_toasts {α : Type} (e : RawError) (isLast : Bool)
    (cd : CooldownState) (hcd : cd.isActive = false) (res : Option α)
    (ts : List Toast) (cd2 : CooldownState) (sch : Nat)
    (h : errorCatchStep e isLast cd = AttemptStep.done res ts cd2 sch) :
    ts.length = 1 ∧ res = none := by
  simp only [errorCatchStep] at h
  split at h
  · injection h with h1 h2 h3 h4
    subst h1
    subst h2
    simp [setGeminiQuotaExhaustedCooldown, hcd]
  · split at h
    · injection h with h1 h2 h3 h4
      subst h1
      subst h2
      simp
    · simp at h

lemma genAttemptStep_done_toasts (term : String) (res : CallResult)
    (isLast : Bool) (cd : CooldownState) (hcd : cd.isActive = false)
    (r : Option WordPayload) (ts : List Toast) (cd2 : CooldownState)
    (sch : Nat)
    (h : genAttemptStep term res isLast cd = AttemptStep.done r ts cd2 sch) :
    ts.length = if cleanResult r then 0 else 1 := by
  cases res with
  | err e =>
    obtain ⟨h1, h2⟩ := errorCatchStep_done_toasts e isLast cd hcd r ts cd2 sch h
    subst h2
    simp [cleanResult, h1]
  | ok text =>
    simp only [genAttemptStep] at h
    split at h
    · split at h
      · split at h
        · injection h with h1 h2 h3 h4
          subst h1
          subst h2
          simp [cleanResult, isFullPayload, degradedWord, falsyOpt]
        · simp at h
      · rename_i data hdata hfull
        injection h with h1 h2 h3 h4
        subst h1
        subst h2
        simp only [cleanResult, isFullPayload]
        rw [Bool.not_eq_true] at hfull
        simp [hfull]
    · obtain ⟨h1, h2⟩ :=
        errorCatchStep_done_toasts jsonParseFailure isLast cd hcd r ts cd2 sch h
      subst h2
      simp [cleanResult, h1]

end GeminiClient

namespace GeminiClient

lemma imgAttemptStep_done_toasts (res : ImgCallResult) (isLast : Bool)
    (cd : CooldownState) (hcd : cd.isActive = false) (r : Option String)
    (ts : List Toast) (cd2 : CooldownState) (sch : Nat)
    (h : imgAttemptStep res isLast cd = AttemptStep.done r ts cd2 sch) :
    ts.length = 1 := by
  cases res with
  | err e =>
    exact (errorCatchStep_done_toasts e isLast cd hcd r ts cd2 sch h).1
  | ok bytes =>
    rcases bytes with _ | b <;> simp only [imgAttemptStep] at h <;>
      repeat' split at h
    all_goals
      first
      | (injection h with h1 h2 h3 h4; subst h2; simp)
      | (obtain ⟨h1, h2, h3, h4⟩ := h; subst h2; simp)
      | simp at h

lemma attemptStep_cases {α : Type} (s : AttemptStep α) :
    (∃ res ts cd2 sch, s = AttemptStep.done res ts cd2 sch) ∨
    (∃ t, s = AttemptStep.retry t) := by
  cases s with
  | done res ts cd2 sch => exact Or.inl ⟨res, ts, cd2, sch, rfl⟩
  | retry t => exact Or.inr ⟨t, rfl⟩

lemma genLoop_toast_count (term : String) (op : Nat → CallResult) :
    ∀ (r i d : Nat) (cd : CooldownState), cd.isActive = false →
      (genAttempts term op i r d cd).toasts.length =
        (genAttempts term op i r d cd).delays.length +
          (if cleanResult (genAttempts term op i r d cd).result
           then 0 else 1) := by
  intro r
  induction r with
  | zero =>
    intro i d cd hcd
    simp only [genAttempts, runRetryLoop]
    rcases attemptStep_cases (genAttemptStep term (op i) true cd) with
      ⟨res, ts, cd2, sch, heq⟩ | ⟨t, heq⟩
    · simp only [heq]
      have := genAttemptStep_done_toasts term (op i) true cd hcd
        res ts cd2 sch heq
      simp [this]
    · simp only [heq]
      simp [cleanResult]
  | succ r ih =>
    intro i d cd hcd
    have ihh := ih (i + 1) (d * 2) cd hcd
    simp only [genAttempts] at ihh
    simp only [genAttempts, runRetryLoop]
    rcases attemptStep_cases (genAttemptStep term (op i) false cd) with
      ⟨res, ts, cd2, sch, heq⟩ | ⟨t, heq⟩
    · simp only [heq]
      have := genAttemptStep_done_toasts term (op i) false cd hcd
        res ts cd2 sch heq
      simp [this]
    · simp only [heq]
      simp only [List.length_cons]
      rw [ihh]
      omega

lemma imgLoop_toast_count (op : Nat → ImgCallResult) :
    ∀ (r i d : Nat) (cd : CooldownState), cd.isActive = false →
      (imgAttempts op i r d cd).toasts.length =
        (imgAttempts op i r d cd).delays.length + 1 := by
  intro r
  induction r with
  | zero =>
    intro i d cd hcd
    simp only [imgAttempts, runRetryLoop]
    rcases attemptStep_cases (imgAttemptStep (op i) true cd) with
      ⟨res, ts, cd2, sch, heq⟩ | ⟨t, heq⟩
    · simp only [heq]
      have := imgAttemptStep_done_toasts (op i) true cd hcd res ts cd2 sch heq
      simp [this]
    · simp only [heq]
      simp
  | succ r ih =>
    intro i d cd hcd
    have ihh := ih (i + 1) (d * 2) cd hcd
    simp only [imgAttempts] at ihh
    simp only [imgAttempts, runRetryLoop]
    rcases attemptStep_cases (imgAttemptStep (op i) false cd) with
      ⟨res, ts, cd2, sch, heq⟩ | ⟨t, heq⟩
    · simp only [heq]
      have := imgAttemptStep_done_toasts (op i) false cd hcd res ts cd2 sch heq
      simp [this]
    · simp only [heq]
      simp only [List.length_cons]
      rw [ihh]

end GeminiClient

namespace GeminiClient

/-- Claim C6: With policy {maxRetries: 2, initialDelayMs: 1000,
backoffMultiplier: 2} and an operation failing with a transient
(non-quota, non-rate-limit) error on attempts 1 and 2 and succeeding with
a complete payload on attempt 3: the operation is called exactly 3 times,
the observed sleep delays are [1000ms, 2000ms] in that order, and the
final result is Success; and in general, in every retry loop run, the
delay slept before retry attempt k (0-indexed, k ≥ 1) equals
initialDelayMs * 2^(k-1). -/
theorem c6_backoff_schedule (term : String) (op : Nat → CallResult)
    (cd : CooldownState) (hcd : cd.isActive = false) (e : RawError)
    (hnq : (parseGeminiError e).isQuotaExhaustedError = false)
    (hnr : (parseGeminiError e).isRateLimitErrorForRetry = false)
    (h0 : op 0 = CallResult.err e) (h1 : op 1 = CallResult.err e)
    (t : Option String) (w : WordPayload) (h2 : op 2 = CallResult.ok t)
    (hparse : parseWordJson (stripFence (strTrim (t.getD ""))) = some w)
    (hfull : isFullPayload w = true) :
    (generateWordDetailsWithGemini term true op 2 1000 cd).calls = 3 ∧
    (generateWordDetailsWithGemini term true op 2 1000 cd).delays
      = [1000, 2000] ∧
    (generateWordDetailsWithGemini term true op 2 1000 cd).result = some w ∧
    (∀ (op2 : Nat → CallResult) (r2 i2 d2 : Nat) (cd2 : CooldownState),
      (genAttempts term op2 i2 r2 d2 cd2).delays =
        (List.range (genAttempts term op2 i2 r2 d2 cd2).delays.length).map
          (fun k => d2 * 2 ^ k)) := by
  have hfull' : (falsyOpt w.partOfSpeech || falsyOpt w.meaning ||
      falsyOpt w.exampleSentence) = false := by
    simpa [isFullPayload] using hfull
  refine ⟨?_, ?_, ?_, ?_⟩
  · simp [generateWordDetailsWithGemini, genAttempts, runRetryLoop,
      genAttemptStep, errorCatchStep, h0, h1, h2, hparse, hnq, hnr,
      hfull', hcd]
  · simp [generateWordDetailsWithGemini, genAttempts, runRetryLoop,
      genAttemptStep, errorCatchStep, h0, h1, h2, hparse, hnq, hnr,
      hfull', hcd]
  · simp [generateWordDetailsWithGemini, genAttempts, runRetryLoop,
      genAttemptStep, errorCatchStep, h0, h1, h2, hparse, hnq, hnr,
      hfull', hcd]
  · intro op2 r2 i2 d2 cd2
    exact runRetryLoop_delays _ r2 i2 d2 cd2

/-- Claim C6 (witness): The scenario at the concrete operation `c6Op`
(transient network error twice, then `goodJson`), starting from the
initial cooldown state, and the delay law at that same run. -/
theorem c6_backoff_schedule_witness :
    (generateWordDetailsWithGemini "cat" true c6Op 2 1000
      ⟨false, false⟩).calls = 3 ∧
    (generateWordDetailsWithGemini "cat" true c6Op 2 1000
      ⟨false, false⟩).delays = [1000, 2000] ∧
    (generateWordDetailsWithGemini "cat" true c6Op 2 1000
      ⟨false, false⟩).result = some goodWord ∧
    (genAttempts "cat" c6Op 0 2 1000 ⟨false, false⟩).delays =
      (List.range
        (genAttempts "cat" c6Op 0 2 1000 ⟨false, false⟩).delays.length).map
        (fun k => 1000 * 2 ^ k) :=
  ⟨(c6_backoff_schedule "cat" c6Op ⟨false, false⟩ rfl transientErr
      (by decide) (by decide) (by decide) (by decide) (some goodJson)
      goodWord (by decide) (by decide) (by decide)).1,
   (c6_backoff_schedule "cat" c6Op ⟨false, false⟩ rfl transientErr
      (by decide) (by decide) (by decide) (by decide) (some goodJson)
      goodWord (by decide) (by decide) (by decide)).2.1,
   (c6_backoff_schedule "cat" c6Op ⟨false, false⟩ rfl transientErr
      (by decide) (by decide) (by decide) (by decide) (some goodJson)
      goodWord (by decide) (by decide) (by decide)).2.2.1,
   (c6_backoff_schedule "cat" c6Op ⟨false, false⟩ rfl transientErr
      (by decide) (by decide) (by decide) (by decide) (some goodJson)
      goodWord (by decide) (by decide) (by decide)).2.2.2
     c6Op 2 0 1000 ⟨false, false⟩⟩

end GeminiClient

namespace GeminiClient

lemma genLoop_all_missing (term : String) (op : Nat → CallResult)
    (hop : ∀ i, ∃ t w, op i = CallResult.ok t ∧
      parseWordJson (stripFence (strTrim (t.getD ""))) = some w ∧
      (falsyOpt w.partOfSpeech || falsyOpt w.meaning ||
        falsyOpt w.exampleSentence) = true) :
    ∀ (r i d : Nat) (cd : CooldownState),
      (genAttempts term op i r d cd).result = some (degradedWord term) := by
  intro r
  induction r with
  | zero =>
    intro i d cd
    obtain ⟨t, w, ht, hp, hm⟩ := hop i
    have hstep : genAttemptStep term (op i) true cd
        = AttemptStep.done (some (degradedWord term))
            [(ToastMsg.missingFinal, ToastType.error)] cd 0 := by
      simp [genAttemptStep, ht, hp, hm]
    simp only [genAttempts, runRetryLoop]
    simp [hstep]
  | succ r ih =>
    intro i d cd
    obtain ⟨t, w, ht, hp, hm⟩ := hop i
    have hstep : genAttemptStep term (op i) false cd
        = AttemptStep.retry (ToastMsg.missingRetry, ToastType.warning) := by
      simp [genAttemptStep, ht, hp, hm]
    have ihh := ih (i + 1) (d * 2) cd
    simp only [genAttempts] at ihh
    simp only [genAttempts, runRetryLoop]
    simp [hstep, ihh]

/-- Claim C7: With required fields {meaning, partOfSpeech, exampleSentence},
if every attempt up to and including maxRetries returns a successfully
parsed payload that is missing (or carries falsy values for) at least one
required field, `execute` returns the degraded fallback object carrying
only the original query term (`{ term }`), not a hard Failure (null). -/
theorem c7_degraded_fallback (term : String) (op : Nat → CallResult)
    (retries initialDelay : Nat) (cd : CooldownState)
    (hcd : cd.isActive = false)
    (hop : ∀ i, ∃ t w, op i = CallResult.ok t ∧
      parseWordJson (stripFence (strTrim (t.getD ""))) = some w ∧
      (falsyOpt w.partOfSpeech || falsyOpt w.meaning ||
        falsyOpt w.exampleSentence) = true) :
    (generateWordDetailsWithGemini term true op retries initialDelay
        cd).result = some (degradedWord term) ∧
    (generateWordDetailsWithGemini term true op retries initialDelay
        cd).result ≠ none := by
  have h := genLoop_all_missing term op hop retries 0 initialDelay cd
  constructor
  · simpa [generateWordDetailsWithGemini, hcd] using h
  · have h2 : (generateWordDetailsWithGemini term true op retries
        initialDelay cd).result = some (degradedWord term) := by
      simpa [generateWordDetailsWithGemini, hcd] using h
    simp [h2]

/-- Claim C7 (witness): The scenario at the concrete operation that always
returns `missingJson` (no `exampleSentence`), policy retries = 2. -/
theorem c7_degraded_fallback_witness :
    (generateWordDetailsWithGemini "cat" true
        (fun _ => CallResult.ok (some missingJson)) 2 7000
        ⟨false, false⟩).result = some (degradedWord "cat") ∧
    (generateWordDetailsWithGemini "cat" true
        (fun _ => CallResult.ok (some missingJson)) 2 7000
        ⟨false, false⟩).result ≠ none :=
  c7_degraded_fallback "cat" (fun _ => CallResult.ok (some missingJson))
    2 7000 ⟨false, false⟩ rfl
    (fun _ => ⟨some missingJson, missingWord, rfl, by decide, by decide⟩)

lemma genLoop_unparsed (term : String) (op : Nat → CallResult)
    (hop : ∀ i, ∃ t, op i = CallResult.ok t ∧
      parseWordJson (stripFence (strTrim (t.getD ""))) = none) :
    ∀ (r i d : Nat) (cd : CooldownState),
      (genAttempts term op i r d cd).result = none ∧
      (genAttempts term op i r d cd).calls = r + 1 ∧
      (genAttempts term op i r d cd).delays.length = r ∧
      (genAttempts term op i r d cd).toasts.length = r + 1 := by
  have hq : (parseGeminiError jsonParseFailure).isQuotaExhaustedError
      = false := by decide
  have hr : (parseGeminiError jsonParseFailure).isRateLimitErrorForRetry
      = false := by decide
  intro r
  induction r with
  | zero =>
    intro i d cd
    obtain ⟨t, ht, hp⟩ := hop i
    have hstep : genAttemptStep term (op i) true cd
        = AttemptStep.done none
            [(ToastMsg.genericFinal, ToastType.error)] cd 0 := by
      simp [genAttemptStep, errorCatchStep, ht, hp, hq, hr]
    simp only [genAttempts, runRetryLoop]
    simp [hstep]
  | succ r ih =>
    intro i d cd
    obtain ⟨t, ht, hp⟩ := hop i
    have hstep : genAttemptStep term (op i) false cd
        = AttemptStep.retry (ToastMsg.genericRetry, ToastType.warning) := by
      simp [genAttemptStep, errorCatchStep, ht, hp, hq, hr]
    have ihh := ih (i + 1) (d * 2) cd
    simp only [genAttempts] at ihh
    simp only [genAttempts, runRetryLoop]
    simp [hstep, ihh]

/-- Claim C8 (counterexample): With every provider call resolving with the
non-JSON text "hello" and policy retries = 1, the execute path does NOT
return the raw payload as-is: the `JSON.parse` failure throws into the
catch block, the call is retried once with a warning toast and a backoff
sleep, and the invocation ends with Failure (null) and a terminal error
toast — refuting the claim that a parse failure is treated as a
malformed-but-successful call and returned to the caller. -/
theorem c8_unparsed_counterexample :
    c8Outcome.result = none ∧ c8Outcome.calls = 2 ∧
    c8Outcome.delays = [1000] ∧
    c8Outcome.toasts = [(ToastMsg.genericRetry, ToastType.warning),
      (ToastMsg.genericFinal, ToastType.error)] := by
  refine ⟨?_, ?_, ?_, ?_⟩ <;> decide

/-- Claim C8 (amended): When the provider call succeeds but the returned
text fails to decode as JSON, the text-generation execute path treats the
parse failure as a thrown error and enters the error/retry branch
(classified as a generic retryable error): with such text on every
attempt, the operation is called maxRetries + 1 times, one backoff sleep
and one notification per retry plus a terminal one, and the invocation
returns Failure (null) — the raw payload is never returned to the
caller. -/
theorem c8_unparsed_text_retries (term : String) (op : Nat → CallResult)
    (retries initialDelay : Nat) (cd : CooldownState)
    (hcd : cd.isActive = false)
    (hop : ∀ i, ∃ t, op i = CallResult.ok t ∧
      parseWordJson (stripFence (strTrim (t.getD ""))) = none) :
    (generateWordDetailsWithGemini term true op retries initialDelay
        cd).result = none ∧
    (generateWordDetailsWithGemini term true op retries initialDelay
        cd).calls = retries + 1 ∧
    (generateWordDetailsWithGemini term true op retries initialDelay
        cd).delays.length = retries ∧
    (generateWordDetailsWithGemini term true op retries initialDelay
        cd).toasts.length = retries + 1 := by
  have h := genLoop_unparsed term op hop retries 0 initialDelay cd
  have h0 : generateWordDetailsWithGemini term true op retries initialDelay cd
      = { toRetryTrace := genAttempts term op 0 retries initialDelay cd
          cooldownChecks := 1 } := by
    simp [generateWordDetailsWithGemini, hcd]
  rw [h0]
  exact ⟨h.1, h.2.1, h.2.2.1, h.2.2.2⟩

/-- Claim C8 (witness): The amended statement at the concrete operation that
always resolves with the non-JSON text "hello", policy retries = 1. -/
theorem c8_unparsed_text_retries_witness :
    (generateWordDetailsWithGemini "cat" true
        (fun _ => CallResult.ok (some "hello")) 1 1000
        ⟨false, false⟩).result = none ∧
    (generateWordDetailsWithGemini "cat" true
        (fun _ => CallResult.ok (some "hello")) 1 1000
        ⟨false, false⟩).calls = 1 + 1 ∧
    (generateWordDetailsWithGemini "cat" true
        (fun _ => CallResult.ok (some "hello")) 1 1000
        ⟨false, false⟩).delays.length = 1 ∧
    (generateWordDetailsWithGemini "cat" true
        (fun _ => CallResult.ok (some "hello")) 1 1000
        ⟨false, false⟩).toasts.length = 1 + 1 :=
  c8_unparsed_text_retries "cat" (fun _ => CallResult.ok (some "hello"))
    1 1000 ⟨false, false⟩ rfl
    (fun _ => ⟨some "hello", rfl, by decide⟩)

end GeminiClient

namespace GeminiClient

/-- Claim C9 (counterexample): An image-generation invocation whose first
provider call succeeds with image bytes present emits exactly one
notification (the success toast at source line 690) on its
success-on-first-try path — refuting the claim that in every execute
invocation, including the image-generation variant, the
success-on-first-try path emits no notification. -/
theorem c9_img_success_toast_counterexample :
    c9ImgOutcome.calls = 1 ∧ c9ImgOutcome.result = some "bytes" ∧
    c9ImgOutcome.toasts = [(ToastMsg.imageDone, ToastType.success)] := by
  refine ⟨?_, ?_, ?_⟩ <;> decide

/-- Claim C9 (amended): In every retry-loop run started with an inactive
cooldown, each branch emits exactly one user-facing notification through
the injected notify callback — every retry branch pairs its one
notification with its one backoff sleep, and the terminal branch adds
exactly one more — except the text-generation success path, which emits
none (in particular a first-try full success emits no notification at
all); the image-generation variant's success path instead emits exactly
one (success) notification, so its toast count is always one more than
its sleep count. -/
theorem c9_notification_discipline (term : String) (op : Nat → CallResult)
    (iop : Nat → ImgCallResult) (r i d : Nat) (cd : CooldownState)
    (hcd : cd.isActive = false) :
    ((genAttempts term op i r d cd).toasts.length =
      (genAttempts term op i r d cd).delays.length +
        (if isCleanSuccess (genAttempts term op i r d cd) then 0 else 1)) ∧
    ((genAttempts term op i r d cd).calls = 1 →
      isCleanSuccess (genAttempts term op i r d cd) = true →
      (genAttempts term op i r d cd).toasts = []) ∧
    (imgAttempts iop i r d cd).toasts.length =
      (imgAttempts iop i r d cd).delays.length + 1 := by
  have h1 := genLoop_toast_count term op r i d cd hcd
  have h3 := imgLoop_toast_count iop r i d cd hcd
  refine ⟨by simpa [isCleanSuccess] using h1, ?_, h3⟩
  intro hc hclean
  have hlen : (genAttempts term op i r d cd).calls =
      (genAttempts term op i r d cd).delays.length + 1 :=
    runRetryLoop_calls (fun j l cd2 => genAttemptStep term (op j) l cd2)
      r i d cd
  have hd : (genAttempts term op i r d cd).delays.length = 0 := by omega
  simp only [isCleanSuccess] at hclean
  have hz : (genAttempts term op i r d cd).toasts.length = 0 := by
    rw [h1, hd, hclean]
    simp
  exact List.length_eq_zero.mp hz

/-- Claim C9 (witness): The discipline at concrete runs: a text-generation
run succeeding fully on the first try (no notification at all) and an
image-generation run succeeding on the first try (exactly one
notification). -/
theorem c9_notification_discipline_witness :
    ((genAttempts "cat" (fun _ => CallResult.ok (some goodJson)) 0 1 1000
        ⟨false, false⟩).toasts.length =
      (genAttempts "cat" (fun _ => CallResult.ok (some goodJson)) 0 1 1000
        ⟨false, false⟩).delays.length +
        (if isCleanSuccess (genAttempts "cat"
            (fun _ => CallResult.ok (some goodJson)) 0 1 1000
            ⟨false, false⟩) then 0 else 1)) ∧
    (genAttempts "cat" (fun _ => CallResult.ok (some goodJson)) 0 1 1000
        ⟨false, false⟩).toasts = [] ∧
    (imgAttempts (fun _ => ImgCallResult.ok (some "bytes")) 0 1 1000
        ⟨false, false⟩).toasts.length =
      (imgAttempts (fun _ => ImgCallResult.ok (some "bytes")) 0 1 1000
        ⟨false, false⟩).delays.length + 1 :=
  ⟨(c9_notification_discipline "cat"
      (fun _ => CallResult.ok (some goodJson))
      (fun _ => ImgCallResult.ok (some "bytes")) 1 0 1000
      ⟨false, false⟩ rfl).1,
   (c9_notification_discipline "cat"
      (fun _ => CallResult.ok (some goodJson))
      (fun _ => ImgCallResult.ok (some "bytes")) 1 0 1000
      ⟨false, false⟩ rfl).2.1 (by decide) (by decide),
   (c9_notification_discipline "cat"
      (fun _ => CallResult.ok (some goodJson))
      (fun _ => ImgCallResult.ok (some "bytes")) 1 0 1000
      ⟨false, false⟩ rfl).2.2⟩

end GeminiClient
